import Mathlib

/-!
Shallow embedding of the EcomSync payment server core
(src/server/src: order.service.ts, stripe.service.ts,
checkout.controller.ts, webhook.controller.ts, types/index.ts).

Modelling conventions:
- JavaScript numbers that the code uses for money are modelled by `JsNum`:
  an exact integer or NaN. The inputs relevant to the claims are integer
  minor-currency amounts (or an absent `price` field, which JavaScript
  multiplication turns into NaN); within that range float64 arithmetic is
  exact, so `JsNum` is faithful.
- The Prisma database is a `DB` value holding the `Order` and
  `WebhookEvent` tables as lists. `prisma.$transaction` bodies are
  modelled as atomic functions on `DB`; for the atomicity claim the
  transaction body is additionally split into the list of primitive
  writes it issues, with rollback semantics.
- External gateway behaviour (the Stripe SDK) is passed in as oracle
  functions; the controllers record every gateway call they issue in a
  call log so that "no external call is made" is a provable statement.
-/

namespace EcomSync

/-- JavaScript number restricted to the values arising in this code:
an exact integer (minor currency units) or NaN. -/
inductive JsNum where
  | num (v : Int)
  | nan
deriving DecidableEq, Repr

/-- JavaScript addition on `JsNum`: NaN propagates. -/
def jsAdd : JsNum → JsNum → JsNum
  | .num a, .num b => .num (a + b)
  | _, _ => .nan

/-- JavaScript `price * quantity` where `price` may be absent
(undefined): `undefined * q` is NaN. -/
def jsMulPrice : Option Int → Int → JsNum
  | some p, q => .num (p * q)
  | none, _ => .nan

/-- CartItem from types/index.ts. `price` is `Option Int` because the
checkout validation never inspects it, so requests may omit it. -/
structure CartItem where
  id : String
  name : String
  price : Option Int
  quantity : Int
deriving DecidableEq, Repr

/-- calculateOrderTotal from checkout.controller.ts:
`items.reduce((total, item) => total + item.price * item.quantity, 0)`. -/
def calculateOrderTotal (items : List CartItem) : JsNum :=
  items.foldl (fun total item => jsAdd total (jsMulPrice item.price item.quantity)) (.num 0)

/-- The per-item validation test of checkout.controller.ts Step 1:
`!item.id || !item.quantity || item.quantity < 1` (JavaScript falsiness:
an empty id string and a zero quantity are falsy). -/
def itemInvalid (item : CartItem) : Bool :=
  item.id == "" || item.quantity == 0 || item.quantity < 1

/-- Overall input validation of checkout.controller.ts Step 1: the items
array is non-empty and no item fails `itemInvalid`. -/
def validItems (items : List CartItem) : Bool :=
  !items.isEmpty && items.all (fun item => !(itemInvalid item))

/-- OrderStatus from the Prisma schema (PENDING, PROCESSING, PAID, FAILED). -/
inductive OrderStatus where
  | PENDING
  | PROCESSING
  | PAID
  | FAILED
deriving DecidableEq, Repr

/-- Order row. Field names follow the Prisma model used by
order.service.ts (`stripeCheckoutId` is the provider session id). -/
structure Order where
  id : String
  status : OrderStatus
  amount : JsNum
  currency : String
  items : List CartItem
  idempotencyKey : String
  stripeCheckoutId : Option String
  stripePaymentId : Option String
  customerEmail : Option String
  paidAt : Option Int
deriving DecidableEq, Repr

/-- WebhookEvent row: the provider event id used as dedup token,
and the event type recorded with it. -/
structure WebhookEvent where
  id : String
  type : String
deriving DecidableEq, Repr

/-- The durable store: the two tables. -/
structure DB where
  orders : List Order
  webhookEvents : List WebhookEvent
deriving DecidableEq, Repr

/-- prisma.order.findUnique on idempotencyKey. -/
def findOrderByIdempotencyKey (db : DB) (key : String) : Option Order :=
  db.orders.find? (fun o => o.idempotencyKey == key)

/-- prisma.order.findUnique on stripeCheckoutId. -/
def findOrderByStripeCheckoutId (db : DB) (sid : String) : Option Order :=
  db.orders.find? (fun o => o.stripeCheckoutId == some sid)

/-- prisma.webhookEvent.findUnique on id. -/
def findWebhookEvent (db : DB) (eventId : String) : Option WebhookEvent :=
  db.webhookEvents.find? (fun e => e.id == eventId)

/-- prisma.webhookEvent.create. -/
def insertWebhookEvent (db : DB) (eventId ty : String) : DB :=
  { db with webhookEvents := db.webhookEvents ++ [⟨eventId, ty⟩] }

/-- prisma.order.update on id: apply the field update to the row with
that id. -/
def updateOrderById (db : DB) (orderId : String) (f : Order → Order) : DB :=
  { db with orders := db.orders.map (fun o => if o.id == orderId then f o else o) }

/-- prisma.order.create as constrained by the Prisma schema (the schema
file sits outside src; it is reproduced in src/server/README.md):
`amount Int` makes the Prisma client reject a non-integer amount — in
particular NaN — before any insert reaches the database, and the
`@unique` constraint on idempotencyKey makes the insert fail when a row
with the same key already exists. Both failures surface as thrown
errors from the create call. -/
def createOrderRow (db : DB) (o : Order) : Except String DB :=
  match o.amount with
  | .nan => .error "Invalid value provided for amount: expected Int"
  | .num _ =>
    if db.orders.any (fun x => x.idempotencyKey == o.idempotencyKey) then
      .error "Unique constraint failed on idempotencyKey"
    else
      .ok { db with orders := db.orders ++ [o] }

/-- CreateOrderInput from types/index.ts. -/
structure CreateOrderInput where
  items : List CartItem
  idempotencyKey : String
  amount : JsNum
  currency : String
deriving DecidableEq, Repr

/-- The new PENDING row built by createOrder in order.service.ts. -/
def newPendingOrder (input : CreateOrderInput) (newId : String) : Order :=
  { id := newId
    status := .PENDING
    amount := input.amount
    currency := input.currency
    items := input.items
    idempotencyKey := input.idempotencyKey
    stripeCheckoutId := none
    stripePaymentId := none
    customerEmail := none
    paidAt := none }

/-- The continuation of createOrder after its findUnique read: return
the existing order if the read found one, otherwise insert a new
PENDING row (which may hit the uniqueness constraint). Split out so the
read/insert interleaving of concurrent callers can be stated. -/
def createOrderAfterRead (db : DB) (readResult : Option Order)
    (input : CreateOrderInput) (newId : String) : Except String (DB × Order) :=
  match readResult with
  | some existing => .ok (db, existing)
  | none =>
    let o := newPendingOrder input newId
    (createOrderRow db o).map (fun db1 => (db1, o))

/-- createOrder from order.service.ts: findUnique on idempotencyKey,
return the existing order on a hit, otherwise create a PENDING row.
The constraint-violation error is not caught here. -/
def createOrder (db : DB) (input : CreateOrderInput) (newId : String) :
    Except String (DB × Order) :=
  createOrderAfterRead db (findOrderByIdempotencyKey db input.idempotencyKey) input newId

/-- updateOrderWithStripeSession from order.service.ts: set the session
id and move the order to PROCESSING. -/
def updateOrderWithStripeSession (db : DB) (orderId sid : String) : DB :=
  updateOrderById db orderId (fun o => { o with stripeCheckoutId := some sid, status := .PROCESSING })

/-- A primitive write issued inside a prisma.$transaction body:
insert a WebhookEvent row, set an order to PAID with its payment
fields, or set an order to FAILED. -/
inductive TxWrite where
  | insertEvent (eventId ty : String)
  | setPaid (orderId : String) (payId email : Option String) (now : Int)
  | setFailed (orderId : String)
deriving DecidableEq, Repr

/-- Apply one primitive write to the store. -/
def applyWrite (db : DB) : TxWrite → DB
  | .insertEvent eventId ty => insertWebhookEvent db eventId ty
  | .setPaid orderId payId email now =>
      updateOrderById db orderId (fun o =>
        { o with status := .PAID, stripePaymentId := payId,
                 customerEmail := email, paidAt := some now })
  | .setFailed orderId =>
      updateOrderById db orderId (fun o => { o with status := .FAILED })

/-- Apply a list of primitive writes in order. -/
def applyWrites (db : DB) (ws : List TxWrite) : DB :=
  ws.foldl applyWrite db

/-- The branch structure of the markOrderAsPaid transaction body in
order.service.ts, returning the primitive writes it issues together
with its return value (null is modelled as `none`). Steps, as in the
source: (1) dedup check on the event id; (2) look up the order by
session id, recording the event even when no order matches; (3) skip the
mutation when the order is already PAID; (4) otherwise set it to PAID
with the payment fields; (5) record the event. -/
def markOrderAsPaidTx (db : DB) (stripeCheckoutId : String)
    (stripePaymentId customerEmail : Option String)
    (webhookEventId : String) (now : Int) : List TxWrite × Option Order :=
  match findWebhookEvent db webhookEventId with
  | some _ => ([], none)
  | none =>
    match findOrderByStripeCheckoutId db stripeCheckoutId with
    | none => ([.insertEvent webhookEventId "checkout.session.completed"], none)
    | some order =>
      if order.status == .PAID then
        ([.insertEvent webhookEventId "checkout.session.completed"], some order)
      else
        let updated := { order with
          status := .PAID, stripePaymentId := stripePaymentId,
          customerEmail := customerEmail, paidAt := some now }
        ([.setPaid order.id stripePaymentId customerEmail now,
          .insertEvent webhookEventId "checkout.session.completed"], some updated)

/-- markOrderAsPaid from order.service.ts: the transaction body above
run atomically (prisma.$transaction commits all writes on success). -/
def markOrderAsPaid (db : DB) (stripeCheckoutId : String)
    (stripePaymentId customerEmail : Option String)
    (webhookEventId : String) (now : Int) : DB × Option Order :=
  let r := markOrderAsPaidTx db stripeCheckoutId stripePaymentId customerEmail webhookEventId now
  (applyWrites db r.1, r.2)

/-- The branch structure of the markOrderAsFailed transaction body in
order.service.ts. Note: unlike markOrderAsPaid, the source performs no
terminal-status check before the update. -/
def markOrderAsFailedTx (db : DB) (stripeCheckoutId webhookEventId : String) :
    List TxWrite × Option Order :=
  match findWebhookEvent db webhookEventId with
  | some _ => ([], none)
  | none =>
    match findOrderByStripeCheckoutId db stripeCheckoutId with
    | none => ([.insertEvent webhookEventId "checkout.session.expired"], none)
    | some order =>
      let updated := { order with status := OrderStatus.FAILED }
      ([.setFailed order.id,
        .insertEvent webhookEventId "checkout.session.expired"], some updated)

/-- markOrderAsFailed from order.service.ts, run atomically. -/
def markOrderAsFailed (db : DB) (stripeCheckoutId webhookEventId : String) :
    DB × Option Order :=
  let r := markOrderAsFailedTx db stripeCheckoutId webhookEventId
  (applyWrites db r.1, r.2)

/-- Prisma interactive transaction semantics: the body either commits
all its writes or aborts (crash or failure partway) and rolls back,
leaving the store unchanged. -/
def runTransaction (db : DB) (writes : List TxWrite) (aborted : Bool) : DB :=
  if aborted then db else applyWrites db writes

/-- A verified provider event as consumed by webhook.controller.ts:
id, type, the session id carried in data.object, and the payment
fields extracted for completed events. -/
structure StripeEvent where
  id : String
  type : String
  sessionId : String
  paymentIntentId : Option String
  customerEmail : Option String
deriving DecidableEq, Repr

/-- HTTP outcome of handleStripeWebhook (400 on the three rejection
paths, 200 `received` otherwise). -/
inductive WebhookResponse where
  | missingSignature
  | missingRawBody
  | invalidSignature
  | received
deriving DecidableEq, Repr

/-- handleStripeWebhook from webhook.controller.ts. `verify` is the
gateway signature-verification oracle (stripe.service
verifyWebhookSignature): it receives the raw body and the signature
header and yields the verified event or `none`. The dispatch mirrors
the switch on event.type; payment_intent.payment_failed and unhandled
types perform no store mutation. -/
def handleStripeWebhook (verify : String → String → Option StripeEvent)
    (db : DB) (signature rawBody : Option String) (now : Int) :
    DB × WebhookResponse :=
  match signature with
  | none => (db, .missingSignature)
  | some sig =>
    match rawBody with
    | none => (db, .missingRawBody)
    | some body =>
      match verify body sig with
      | none => (db, .invalidSignature)
      | some event =>
        if event.type == "checkout.session.completed" then
          ((markOrderAsPaid db event.sessionId event.paymentIntentId
              event.customerEmail event.id now).1, .received)
        else if event.type == "checkout.session.expired" then
          ((markOrderAsFailed db event.sessionId event.id).1, .received)
        else
          (db, .received)

/-- Result of the stripe.service createCheckoutSession call: on success
the session id is always present and the url may be absent; on failure
a classified user-facing error message. -/
inductive StripeSessionResult where
  | ok (sessionId : String) (sessionUrl : Option String)
  | err (error : String)
deriving DecidableEq, Repr

/-- A retrieved checkout session (stripe.service getCheckoutSession). -/
structure StripeSession where
  id : String
  url : Option String
deriving DecidableEq, Repr

/-- External gateway calls issued by the checkout controller, recorded
so that absence of provider calls is provable. -/
inductive GatewayCall where
  | retrieveSession (sessionId : String)
  | createSession (orderId : String) (items : List CartItem) (idempotencyKey : String)
deriving DecidableEq, Repr

/-- HTTP outcome of the checkout controller: 400 validation error, 500
stripe failure, 500 unexpected error (the outer catch), or 200 with the
session url and order id. -/
inductive CheckoutResponse where
  | validationError (msg : String)
  | stripeError (msg : String)
  | internalError
  | success (sessionUrl : Option String) (orderId : String)
deriving DecidableEq, Repr

/-- createCheckoutSession from checkout.controller.ts. Oracles:
`retrieve` is stripe.service getCheckoutSession and `create` is
stripe.service createCheckoutSession (called with order id, items and
idempotency key). `genKey` stands for the uuidv4() result and
`newOrderId` for the database-assigned order id. Steps mirror the
source: validate items, resolve the idempotency key (a falsy client key
means generate), replay an existing session when the key matches an
order that has one and the gateway still reports a url, otherwise
compute the amount, create or reuse the PENDING order, call the
gateway, and on success store the session id and return. An uncaught
error from the order insert surfaces via the outer catch as a 500. -/
def createCheckoutSessionController
    (retrieve : String → Option StripeSession)
    (create : String → List CartItem → String → StripeSessionResult)
    (db : DB) (items : List CartItem) (clientKey : Option String)
    (genKey newOrderId : String) :
    DB × CheckoutResponse × List GatewayCall :=
  if items.isEmpty then
    (db, .validationError "Cart items are required", [])
  else if items.any itemInvalid then
    (db, .validationError "Each item must have id and quantity >= 1", [])
  else
    let idempotencyKey :=
      match clientKey with
      | some k => if k == "" then genKey else k
      | none => genKey
    let replay : Option (DB × CheckoutResponse × List GatewayCall) :=
      match findOrderByIdempotencyKey db idempotencyKey with
      | some existing =>
        match existing.stripeCheckoutId with
        | some sid =>
          match retrieve sid with
          | some session =>
            match session.url with
            | some u => some (db, .success (some u) existing.id, [.retrieveSession sid])
            | none => none
          | none => none
        | none => none
      | none => none
    match replay with
    | some out => out
    | none =>
      let replayCalls : List GatewayCall :=
        match findOrderByIdempotencyKey db idempotencyKey with
        | some existing =>
          match existing.stripeCheckoutId with
          | some sid => [.retrieveSession sid]
          | none => []
        | none => []
      let amount := calculateOrderTotal items
      match createOrder db { items, idempotencyKey, amount, currency := "usd" } newOrderId with
      | .error _ => (db, .internalError, replayCalls)
      | .ok (db1, order) =>
        let calls := replayCalls ++ [.createSession order.id items idempotencyKey]
        match create order.id items idempotencyKey with
        | .err msg => (db1, .stripeError msg, calls)
        | .ok sid url =>
          (updateOrderWithStripeSession db1 order.id sid, .success url order.id, calls)

/-- One webhook delivery as dispatched by webhook.controller.ts to the
order service: a completed event or an expired event, with the fields
each handler extracts. -/
inductive WebhookDelivery where
  | completed (sessionId : String) (payId email : Option String) (eventId : String) (now : Int)
  | expired (sessionId : String) (eventId : String)
deriving DecidableEq, Repr

/-- The provider event id carried by a delivery (the dedup token). -/
def deliveryEventId : WebhookDelivery → String
  | .completed _ _ _ eventId _ => eventId
  | .expired _ eventId => eventId

/-- Process one delivery against the store, via the corresponding
order-service transaction. -/
def processDelivery (db : DB) : WebhookDelivery → DB × Option Order
  | .completed sid payId email eventId now => markOrderAsPaid db sid payId email eventId now
  | .expired sid eventId => markOrderAsFailed db sid eventId

/-- The store after a sequence of deliveries (transactions serialize,
so any interleaving of atomic deliveries is some sequence). -/
def processDeliveries (db : DB) (ds : List WebhookDelivery) : DB :=
  ds.foldl (fun s d => (processDelivery s d).1) db

/-- Number of WebhookEvent rows with the given event id. -/
def countEvents (db : DB) (eventId : String) : Nat :=
  (db.webhookEvents.filter (fun e => e.id == eventId)).length

/-- A store holding a single PAID order for session cs_1, with the
completed event that paid it already recorded. -/
def dbPaidOrder : DB :=
  { orders := [{ id := "ord_1", status := .PAID, amount := .num 1000,
                 currency := "usd", items := [], idempotencyKey := "key_1",
                 stripeCheckoutId := some "cs_1", stripePaymentId := some "pi_1",
                 customerEmail := some "c@x.io", paidAt := some 100 }]
    webhookEvents := [⟨"evt_1", "checkout.session.completed"⟩] }

/-- A store holding a single FAILED order for session cs_2, with the
expired event that failed it already recorded. -/
def dbFailedOrder : DB :=
  { orders := [{ id := "ord_2", status := .FAILED, amount := .num 1000,
                 currency := "usd", items := [], idempotencyKey := "key_2",
                 stripeCheckoutId := some "cs_2", stripePaymentId := none,
                 customerEmail := none, paidAt := none }]
    webhookEvents := [⟨"evt_1", "checkout.session.expired"⟩] }

end EcomSync

namespace EcomSync

/-- C1: the claim states that a PAID or FAILED order is never moved to
another status by any further webhook event. The code violates it:
markOrderAsFailed performs no terminal-status check, so an expired
event with a fresh event id moves a PAID order to FAILED; and
markOrderAsPaid checks only for PAID, so a completed event with a
fresh event id moves a FAILED order to PAID. This theorem evaluates
the embedded source at both failing inputs. -/
theorem C1_terminal_status_regression :
    ((markOrderAsFailed dbPaidOrder "cs_1" "evt_2").1.orders.map (fun o => o.status))
      = [OrderStatus.FAILED]
    ∧ ((markOrderAsPaid dbFailedOrder "cs_2" (some "pi_9") (some "c@x.io") "evt_3" 200).1.orders.map
        (fun o => o.status)) = [OrderStatus.PAID] := by
  decide

/-- C10 counterexample: the claim asserts that an input with an absent
price is accepted and creates an Order whose amount is NaN. Validation
does pass such an input and its computed total is NaN, but the integer
amount column makes the order insert throw, so the full controller run
ends in the 500 catch-all with the store unchanged: no order with a
NaN amount is ever created. -/
theorem C10_nan_not_persisted :
    validItems [⟨"p1", "Widget", none, 1⟩] = true
    ∧ calculateOrderTotal [⟨"p1", "Widget", none, 1⟩] = JsNum.nan
    ∧ createCheckoutSessionController (fun _ => none)
        (fun _ _ _ => .ok "cs_9" (some "https://pay.example/s"))
        ⟨[], []⟩ [⟨"p1", "Widget", none, 1⟩] none "gen1" "ord_9"
      = (⟨[], []⟩, CheckoutResponse.internalError, []) := by
  decide

/-- C10 amended: checkout validation inspects only each item id and
quantity, so a zero or negative price passes validation and the full
controller run persists an Order whose amount is zero or negative; an
absent price also passes validation and its computed total is NaN, but
the integer amount column rejects it at order creation, so that
request fails with a 500 and no Order row — a NaN amount is never
persisted. -/
theorem C10_amended_price_unchecked :
    validItems [⟨"p2", "Gadget", some (-500), 2⟩] = true
    ∧ calculateOrderTotal [⟨"p2", "Gadget", some (-500), 2⟩] = JsNum.num (-1000)
    ∧ (createCheckoutSessionController (fun _ => none)
        (fun _ _ _ => .ok "cs_9" (some "https://pay.example/s"))
        ⟨[], []⟩ [⟨"p2", "Gadget", some (-500), 2⟩] none "gen1" "ord_9").2.1
        = CheckoutResponse.success (some "https://pay.example/s") "ord_9"
    ∧ ((createCheckoutSessionController (fun _ => none)
        (fun _ _ _ => .ok "cs_9" (some "https://pay.example/s"))
        ⟨[], []⟩ [⟨"p2", "Gadget", some (-500), 2⟩] none "gen1" "ord_9").1.orders.map
          (fun o => o.amount)) = [JsNum.num (-1000)]
    ∧ validItems [⟨"p3", "Trinket", some 0, 3⟩] = true
    ∧ calculateOrderTotal [⟨"p3", "Trinket", some 0, 3⟩] = JsNum.num 0
    ∧ (createCheckoutSessionController (fun _ => none)
        (fun _ _ _ => .ok "cs_8" (some "https://pay.example/z"))
        ⟨[], []⟩ [⟨"p3", "Trinket", some 0, 3⟩] none "gen2" "ord_8").2.1
        = CheckoutResponse.success (some "https://pay.example/z") "ord_8"
    ∧ ((createCheckoutSessionController (fun _ => none)
        (fun _ _ _ => .ok "cs_8" (some "https://pay.example/z"))
        ⟨[], []⟩ [⟨"p3", "Trinket", some 0, 3⟩] none "gen2" "ord_8").1.orders.map
          (fun o => o.amount)) = [JsNum.num 0]
    ∧ validItems [⟨"p1", "Widget", none, 1⟩] = true
    ∧ calculateOrderTotal [⟨"p1", "Widget", none, 1⟩] = JsNum.nan
    ∧ createCheckoutSessionController (fun _ => none)
        (fun _ _ _ => .ok "cs_7" (some "https://pay.example/n"))
        ⟨[], []⟩ [⟨"p1", "Widget", none, 1⟩] none "gen3" "ord_7"
      = (⟨[], []⟩, CheckoutResponse.internalError, []) := by
  decide

/-- Generalized accumulator form of calculateOrderTotal on items whose
prices are all present. -/
lemma calculateOrderTotal_foldl (items : List CartItem) (acc : Int)
    (h : ∀ item ∈ items, item.price.isSome) :
    items.foldl (fun total item => jsAdd total (jsMulPrice item.price item.quantity))
        (JsNum.num acc)
      = JsNum.num (acc + (items.map (fun item => item.price.getD 0 * item.quantity)).sum) := by
  induction items generalizing acc with
  | nil => simp
  | cons a t ih =>
    obtain ⟨p, hp⟩ := Option.isSome_iff_exists.mp (h a (List.mem_cons_self a t))
    have ht : ∀ item ∈ t, item.price.isSome := fun i hi => h i (List.mem_cons_of_mem a hi)
    rw [List.foldl_cons]
    have hstep : jsAdd (JsNum.num acc) (jsMulPrice a.price a.quantity)
        = JsNum.num (acc + p * a.quantity) := by
      rw [hp]; rfl
    rw [hstep, ih (acc + p * a.quantity) ht, List.map_cons, List.sum_cons, hp,
      Option.getD_some]
    exact congrArg JsNum.num (by ring)

/-- C6: for every item list whose prices are all present integers, the
computed order amount equals the exact integer sum of unit price times
quantity over the items — no rounding, since the fold stays in exact
integer arithmetic. -/
theorem C6_amount_exact_sum (items : List CartItem)
    (h : ∀ item ∈ items, item.price.isSome) :
    calculateOrderTotal items
      = JsNum.num ((items.map (fun item => item.price.getD 0 * item.quantity)).sum) := by
  unfold calculateOrderTotal
  rw [calculateOrderTotal_foldl items 0 h, Int.zero_add]

/-- Witness for C6 at a concrete two-item cart. -/
theorem C6_amount_exact_sum_witness :
    (∀ item ∈ [CartItem.mk "p1" "Widget" (some 500) 2, CartItem.mk "p2" "Gadget" (some 199) 3],
      item.price.isSome)
    ∧ calculateOrderTotal [CartItem.mk "p1" "Widget" (some 500) 2, CartItem.mk "p2" "Gadget" (some 199) 3]
      = JsNum.num (([CartItem.mk "p1" "Widget" (some 500) 2, CartItem.mk "p2" "Gadget" (some 199) 3].map
          (fun item => item.price.getD 0 * item.quantity)).sum) :=
  ⟨by decide, C6_amount_exact_sum _ (by decide)⟩

/-- A store holding a single PROCESSING order for session cs_3 and no
recorded webhook events. -/
def dbProcessingOrder : DB :=
  { orders := [{ id := "ord_3", status := .PROCESSING, amount := .num 1000,
                 currency := "usd", items := [], idempotencyKey := "key_3",
                 stripeCheckoutId := some "cs_3", stripePaymentId := none,
                 customerEmail := none, paidAt := none }]
    webhookEvents := [] }

/-- C5: when the signature header is missing, or signature verification
returns none for the delivered body and header, the webhook request is
rejected (the response is not the 200 acknowledgment) and the store —
in particular every order status — is unchanged, whatever the payload. -/
theorem C5_invalid_signature_rejected (verify : String → String → Option StripeEvent)
    (db : DB) (signature rawBody : Option String) (now : Int)
    (h : signature = none
      ∨ ∀ body sig, signature = some sig → rawBody = some body → verify body sig = none) :
    (handleStripeWebhook verify db signature rawBody now).1 = db
    ∧ (handleStripeWebhook verify db signature rawBody now).2 ≠ WebhookResponse.received := by
  cases signature with
  | none => exact ⟨rfl, by simp [handleStripeWebhook]⟩
  | some sig =>
    cases rawBody with
    | none => exact ⟨rfl, by simp [handleStripeWebhook]⟩
    | some body =>
      rcases h with h | h
      · exact absurd h (by simp)
      · have hv : verify body sig = none := h body sig rfl rfl
        exact ⟨by simp [handleStripeWebhook, hv], by simp [handleStripeWebhook, hv]⟩

/-- Witness for C5: a verifier that rejects everything, a well-formed
payload, and a store with a real PROCESSING order; the request is
rejected and the store is untouched. -/
theorem C5_invalid_signature_rejected_witness :
    (handleStripeWebhook (fun _ _ => none) dbProcessingOrder
        (some "t=1,v1=bad") (some "payload") 5).1 = dbProcessingOrder
    ∧ (handleStripeWebhook (fun _ _ => none) dbProcessingOrder
        (some "t=1,v1=bad") (some "payload") 5).2 ≠ WebhookResponse.received :=
  C5_invalid_signature_rejected (fun _ _ => none) dbProcessingOrder
    (some "t=1,v1=bad") (some "payload") 5 (Or.inr (fun _ _ _ _ => rfl))

/-- C9: a verified completed or expired event whose session id matches
no order still gets its WebhookEvent row inserted, the service returns
null, and the order table is unchanged. -/
theorem C9_unmatched_event_recorded (db : DB) (sid : String)
    (payId email : Option String) (eid : String) (now : Int)
    (hev : findWebhookEvent db eid = none)
    (hord : findOrderByStripeCheckoutId db sid = none) :
    markOrderAsPaid db sid payId email eid now
      = (insertWebhookEvent db eid "checkout.session.completed", none)
    ∧ markOrderAsFailed db sid eid
      = (insertWebhookEvent db eid "checkout.session.expired", none)
    ∧ (insertWebhookEvent db eid "checkout.session.completed").orders = db.orders
    ∧ (insertWebhookEvent db eid "checkout.session.expired").orders = db.orders := by
  refine ⟨?_, ?_, rfl, rfl⟩
  · simp [markOrderAsPaid, markOrderAsPaidTx, hev, hord, applyWrites, applyWrite]
  · simp [markOrderAsFailed, markOrderAsFailedTx, hev, hord, applyWrites, applyWrite]

/-- Witness for C9: an event for an unknown session id against the
store holding only the PROCESSING order for cs_3. -/
theorem C9_unmatched_event_recorded_witness :
    markOrderAsPaid dbProcessingOrder "cs_404" none none "evt_9" 7
      = (insertWebhookEvent dbProcessingOrder "evt_9" "checkout.session.completed", none)
    ∧ markOrderAsFailed dbProcessingOrder "cs_404" "evt_9"
      = (insertWebhookEvent dbProcessingOrder "evt_9" "checkout.session.expired", none)
    ∧ (insertWebhookEvent dbProcessingOrder "evt_9" "checkout.session.completed").orders
      = dbProcessingOrder.orders
    ∧ (insertWebhookEvent dbProcessingOrder "evt_9" "checkout.session.expired").orders
      = dbProcessingOrder.orders :=
  C9_unmatched_event_recorded dbProcessingOrder "cs_404" none none "evt_9" 7
    (by decide) (by decide)

/-- Looking up an event id right after inserting a row with that id
succeeds (whether or not an older row with the id existed). -/
lemma findWebhookEvent_insert_self (db : DB) (i ty : String) :
    (findWebhookEvent (insertWebhookEvent db i ty) i).isSome := by
  unfold findWebhookEvent insertWebhookEvent
  show ((db.webhookEvents ++ [({ id := i, type := ty } : WebhookEvent)]).find?
    (fun e => e.id == i)).isSome
  induction db.webhookEvents with
  | nil => simp [List.find?]
  | cons a t ih =>
    cases hpa : (a.id == i) with
    | true => simp [List.find?_cons, hpa]
    | false => simp [List.find?_cons, hpa, ih]

/-- Order updates do not touch the WebhookEvent table. -/
lemma findWebhookEvent_updateOrder (db : DB) (oid : String) (f : Order → Order)
    (i : String) :
    findWebhookEvent (updateOrderById db oid f) i = findWebhookEvent db i := rfl

/-- A delivery whose event id is already recorded is a complete no-op:
the store is unchanged and the service reports null. -/
lemma processDelivery_dup (db : DB) (d : WebhookDelivery) (ev : WebhookEvent)
    (h : findWebhookEvent db (deliveryEventId d) = some ev) :
    processDelivery db d = (db, none) := by
  cases d with
  | completed sid payId email eid now =>
    simp only [processDelivery, deliveryEventId] at h ⊢
    simp [markOrderAsPaid, markOrderAsPaidTx, h, applyWrites]
  | expired sid eid =>
    simp only [processDelivery, deliveryEventId] at h ⊢
    simp [markOrderAsFailed, markOrderAsFailedTx, h, applyWrites]

/-- After any delivery is processed, a WebhookEvent row with its event
id exists (every branch of both transactions records the event, except
the duplicate branch, which found it already present). -/
lemma processDelivery_records (db : DB) (d : WebhookDelivery) :
    (findWebhookEvent (processDelivery db d).1 (deliveryEventId d)).isSome := by
  cases d with
  | completed sid payId email eid now =>
    simp only [processDelivery, deliveryEventId, markOrderAsPaid]
    cases hev : findWebhookEvent db eid with
    | some ev => simp [markOrderAsPaidTx, hev, applyWrites]
    | none =>
      cases hord : findOrderByStripeCheckoutId db sid with
      | none =>
        simp only [markOrderAsPaidTx, hev, hord, applyWrites, List.foldl_cons,
          List.foldl_nil, applyWrite]
        exact findWebhookEvent_insert_self db eid _
      | some o =>
        cases hst : (o.status == OrderStatus.PAID) with
        | true =>
          simp only [markOrderAsPaidTx, hev, hord, hst, if_true, applyWrites,
            List.foldl_cons, List.foldl_nil, applyWrite]
          exact findWebhookEvent_insert_self db eid _
        | false =>
          simp only [markOrderAsPaidTx, hev, hord, hst, Bool.false_eq_true,
            if_false, applyWrites, List.foldl_cons, List.foldl_nil, applyWrite]
          exact findWebhookEvent_insert_self _ eid _
  | expired sid eid =>
    simp only [processDelivery, deliveryEventId, markOrderAsFailed]
    cases hev : findWebhookEvent db eid with
    | some ev => simp [markOrderAsFailedTx, hev, applyWrites]
    | none =>
      cases hord : findOrderByStripeCheckoutId db sid with
      | none =>
        simp only [markOrderAsFailedTx, hev, hord, applyWrites, List.foldl_cons,
          List.foldl_nil, applyWrite]
        exact findWebhookEvent_insert_self db eid _
      | some o =>
        simp only [markOrderAsFailedTx, hev, hord, applyWrites, List.foldl_cons,
          List.foldl_nil, applyWrite]
        exact findWebhookEvent_insert_self _ eid _

/-- A run of deliveries whose event ids are all already recorded leaves
the store exactly as it was. -/
lemma processDeliveries_recorded (db : DB) (ds : List WebhookDelivery)
    (h : ∀ d ∈ ds, (findWebhookEvent db (deliveryEventId d)).isSome) :
    processDeliveries db ds = db := by
  induction ds with
  | nil => rfl
  | cons d t ih =>
    obtain ⟨ev, hev⟩ := Option.isSome_iff_exists.mp (h d (List.mem_cons_self d t))
    have hd := processDelivery_dup db d ev hev
    show processDeliveries (processDelivery db d).1 t = db
    rw [hd]
    exact ih (fun d' hd' => h d' (List.mem_cons_of_mem d hd'))

/-- Inserting a row with the given id bumps its row count by one. -/
lemma countEvents_insert_self (db : DB) (i ty : String) :
    countEvents (insertWebhookEvent db i ty) i = countEvents db i + 1 := by
  simp [countEvents, insertWebhookEvent, List.filter_append]

/-- Order updates do not change event row counts. -/
lemma countEvents_updateOrder (db : DB) (oid : String) (f : Order → Order)
    (i : String) :
    countEvents (updateOrderById db oid f) i = countEvents db i := rfl

/-- An id the event lookup misses has row count zero. -/
lemma countEvents_of_find_none (db : DB) (i : String)
    (h : findWebhookEvent db i = none) : countEvents db i = 0 := by
  unfold findWebhookEvent at h
  rw [List.find?_eq_none] at h
  simp only [countEvents, List.length_eq_zero, List.filter_eq_nil_iff]
  exact h

/-- Processing a delivery whose event id is not yet recorded inserts
exactly one row with that id. -/
lemma countEvents_processDelivery (db : DB) (d : WebhookDelivery)
    (h : findWebhookEvent db (deliveryEventId d) = none) :
    countEvents (processDelivery db d).1 (deliveryEventId d)
      = countEvents db (deliveryEventId d) + 1 := by
  cases d with
  | completed sid payId email eid now =>
    simp only [processDelivery, deliveryEventId, markOrderAsPaid] at h ⊢
    cases hord : findOrderByStripeCheckoutId db sid with
    | none =>
      simp only [markOrderAsPaidTx, h, hord, applyWrites, List.foldl_cons,
        List.foldl_nil, applyWrite]
      exact countEvents_insert_self db eid _
    | some o =>
      cases hst : (o.status == OrderStatus.PAID) with
      | true =>
        simp only [markOrderAsPaidTx, h, hord, hst, if_true, applyWrites,
          List.foldl_cons, List.foldl_nil, applyWrite]
        exact countEvents_insert_self db eid _
      | false =>
        simp only [markOrderAsPaidTx, h, hord, hst, Bool.false_eq_true, if_false,
          applyWrites, List.foldl_cons, List.foldl_nil, applyWrite]
        rw [countEvents_insert_self, countEvents_updateOrder]
  | expired sid eid =>
    simp only [processDelivery, deliveryEventId, markOrderAsFailed] at h ⊢
    cases hord : findOrderByStripeCheckoutId db sid with
    | none =>
      simp only [markOrderAsFailedTx, h, hord, applyWrites, List.foldl_cons,
        List.foldl_nil, applyWrite]
      exact countEvents_insert_self db eid _
    | some o =>
      simp only [markOrderAsFailedTx, h, hord, applyWrites, List.foldl_cons,
        List.foldl_nil, applyWrite]
      rw [countEvents_insert_self, countEvents_updateOrder]

/-- C2: delivering an event id E any number of times (one delivery
followed by arbitrarily many more, in any order the serialized
transactions interleave to) leaves the store exactly as after the first
delivery — so at most one order transition happens — and yields exactly
one WebhookEvent row with id E; every later delivery finds the row and
is a no-op. -/
theorem C2_same_event_id_collapses (db : DB) (d : WebhookDelivery)
    (ds : List WebhookDelivery) (E : String)
    (hd : deliveryEventId d = E)
    (hds : ∀ dd ∈ ds, deliveryEventId dd = E)
    (h0 : findWebhookEvent db E = none) :
    processDeliveries db (d :: ds) = (processDelivery db d).1
    ∧ countEvents (processDeliveries db (d :: ds)) E = 1 := by
  have h0d : findWebhookEvent db (deliveryEventId d) = none := by rw [hd]; exact h0
  have hrec : ∀ dd ∈ ds, (findWebhookEvent (processDelivery db d).1 (deliveryEventId dd)).isSome := by
    intro dd hmem
    rw [hds dd hmem, ← hd]
    exact processDelivery_records db d
  have h1 : processDeliveries db (d :: ds) = (processDelivery db d).1 := by
    show processDeliveries (processDelivery db d).1 ds = (processDelivery db d).1
    exact processDeliveries_recorded _ _ hrec
  refine ⟨h1, ?_⟩
  rw [h1, ← hd, countEvents_processDelivery db d h0d, countEvents_of_find_none db _ h0d]

/-- Witness for C2: the completed event evt_5 for the PROCESSING order
is delivered three times (twice as completed, once as a late expired
carrying the same event id). -/
theorem C2_same_event_id_collapses_witness :
    processDeliveries dbProcessingOrder
        [.completed "cs_3" (some "pi_5") (some "c@x.io") "evt_5" 10,
         .completed "cs_3" (some "pi_5") (some "c@x.io") "evt_5" 11,
         .expired "cs_3" "evt_5"]
      = (processDelivery dbProcessingOrder
          (.completed "cs_3" (some "pi_5") (some "c@x.io") "evt_5" 10)).1
    ∧ countEvents (processDeliveries dbProcessingOrder
        [.completed "cs_3" (some "pi_5") (some "c@x.io") "evt_5" 10,
         .completed "cs_3" (some "pi_5") (some "c@x.io") "evt_5" 11,
         .expired "cs_3" "evt_5"]) "evt_5" = 1 :=
  C2_same_event_id_collapses dbProcessingOrder
    (.completed "cs_3" (some "pi_5") (some "c@x.io") "evt_5" 10)
    [.completed "cs_3" (some "pi_5") (some "c@x.io") "evt_5" 11,
     .expired "cs_3" "evt_5"] "evt_5" rfl (by decide) (by decide)

/-- The primitive writes the transaction body of a delivery issues,
given the state it reads (markOrderAsPaidTx or markOrderAsFailedTx). -/
def deliveryWrites (db : DB) : WebhookDelivery → List TxWrite
  | .completed sid payId email eid now => (markOrderAsPaidTx db sid payId email eid now).1
  | .expired sid eid => (markOrderAsFailedTx db sid eid).1

/-- C3: the webhook processing steps run as one prisma transaction. On
commit the store is exactly the one all the writes of the body produce;
on abort partway nothing is durably applied (rollback to the original
store, so neither the order mutation nor the dedup row survives), and a
retried delivery of the same event then behaves exactly like a fresh
one — in particular, for an event not yet recorded, crash-then-retry
still ends with exactly one dedup row for that event id. -/
theorem C3_transaction_atomic (db : DB) (d : WebhookDelivery)
    (h0 : findWebhookEvent db (deliveryEventId d) = none) :
    runTransaction db (deliveryWrites db d) false = (processDelivery db d).1
    ∧ runTransaction db (deliveryWrites db d) true = db
    ∧ processDelivery (runTransaction db (deliveryWrites db d) true) d
      = processDelivery db d
    ∧ countEvents (processDelivery (runTransaction db (deliveryWrites db d) true) d).1
        (deliveryEventId d) = 1 := by
  have habort : runTransaction db (deliveryWrites db d) true = db := rfl
  refine ⟨?_, rfl, by rw [habort], ?_⟩
  · cases d <;> rfl
  · rw [habort, countEvents_processDelivery db d h0, countEvents_of_find_none db _ h0]

/-- Witness for C3: a crash while processing the completed event evt_7
for the PROCESSING order, then a retry. -/
theorem C3_transaction_atomic_witness :
    runTransaction dbProcessingOrder
        (deliveryWrites dbProcessingOrder (.completed "cs_3" (some "pi_7") none "evt_7" 12)) false
      = (processDelivery dbProcessingOrder (.completed "cs_3" (some "pi_7") none "evt_7" 12)).1
    ∧ runTransaction dbProcessingOrder
        (deliveryWrites dbProcessingOrder (.completed "cs_3" (some "pi_7") none "evt_7" 12)) true
      = dbProcessingOrder
    ∧ processDelivery (runTransaction dbProcessingOrder
        (deliveryWrites dbProcessingOrder (.completed "cs_3" (some "pi_7") none "evt_7" 12)) true)
        (.completed "cs_3" (some "pi_7") none "evt_7" 12)
      = processDelivery dbProcessingOrder (.completed "cs_3" (some "pi_7") none "evt_7" 12)
    ∧ countEvents (processDelivery (runTransaction dbProcessingOrder
        (deliveryWrites dbProcessingOrder (.completed "cs_3" (some "pi_7") none "evt_7" 12)) true)
        (.completed "cs_3" (some "pi_7") none "evt_7" 12)).1
        (deliveryEventId (.completed "cs_3" (some "pi_7") none "evt_7" 12)) = 1 :=
  C3_transaction_atomic dbProcessingOrder
    (.completed "cs_3" (some "pi_7") none "evt_7" 12) (by decide)

/-- A concrete checkout input used for the idempotency-race analysis. -/
def raceInput : CreateOrderInput :=
  { items := [⟨"p1", "Widget", some 500, 2⟩], idempotencyKey := "key_r",
    amount := .num 1000, currency := "usd" }

/-- C4 counterexample: two concurrent callers with the same idempotency
key both pass the findUnique read before either inserts. Caller A then
creates the order; caller B, continuing from its stale read, hits the
uniqueness constraint and the uncaught error propagates — the source
has no conflict-as-cache-hit re-read, so caller B does not observe the
winning order id and session url the claim promises. -/
theorem C4_race_conflict_errors :
    findOrderByIdempotencyKey (⟨[], []⟩ : DB) "key_r" = none
    ∧ createOrderAfterRead (⟨[], []⟩ : DB) none raceInput "ord_A"
      = .ok (⟨[newPendingOrder raceInput "ord_A"], []⟩, newPendingOrder raceInput "ord_A")
    ∧ createOrderAfterRead (⟨[newPendingOrder raceInput "ord_A"], []⟩ : DB) none raceInput "ord_B"
      = .error "Unique constraint failed on idempotencyKey" :=
  ⟨rfl, rfl, rfl⟩

/-- A singleton find? hit after a missed scan of the prefix. -/
lemma find?_append_singleton {α : Type} (l : List α) (p : α → Bool) (a : α)
    (h : l.find? p = none) (ha : p a = true) : (l ++ [a]).find? p = some a := by
  induction l with
  | nil => simp [List.find?, ha]
  | cons x t ih =>
    cases hx : p x with
    | true =>
      rw [List.find?_cons_of_pos _ hx] at h
      exact absurd h (by simp)
    | false =>
      rw [List.find?_cons_of_neg _ (by simp [hx])] at h
      rw [List.cons_append, List.find?_cons_of_neg _ (by simp [hx])]
      exact ih h

/-- C4 amended: the uniqueness constraint still guarantees at most one
Order row per key — for any request whose computed amount is an integer
(as the schema type requires), the race winner inserts the single
PENDING row and a later sequential retry (whose read sees that row)
returns it unchanged — but the concurrent loser whose insert hits the
constraint receives the propagated error (an HTTP 500 through the
controller catch), not a cache-hit re-read of the winning order. -/
theorem C4_amended_race_one_row (db : DB) (input : CreateOrderInput) (idA idB : String)
    (h : findOrderByIdempotencyKey db input.idempotencyKey = none)
    (hnum : input.amount ≠ JsNum.nan) :
    createOrderAfterRead db none input idA
      = .ok ({ db with orders := db.orders ++ [newPendingOrder input idA] },
             newPendingOrder input idA)
    ∧ createOrderAfterRead
        { db with orders := db.orders ++ [newPendingOrder input idA] } none input idB
      = .error "Unique constraint failed on idempotencyKey"
    ∧ createOrder
        { db with orders := db.orders ++ [newPendingOrder input idA] } input idB
      = .ok ({ db with orders := db.orders ++ [newPendingOrder input idA] },
             newPendingOrder input idA) := by
  have hnone : ∀ x ∈ db.orders, ¬(x.idempotencyKey == input.idempotencyKey) := by
    rw [← List.find?_eq_none]
    exact h
  have hany : db.orders.any (fun x => x.idempotencyKey == input.idempotencyKey) = false :=
    List.any_eq_false.mpr hnone
  obtain ⟨v, hv⟩ : ∃ v, input.amount = JsNum.num v := by
    cases ha : input.amount with
    | num v => exact ⟨v, rfl⟩
    | nan => exact absurd ha hnum
  refine ⟨?_, ?_, ?_⟩
  · simp [createOrderAfterRead, createOrderRow, newPendingOrder, hany, hv, Except.map]
  · simp [createOrderAfterRead, createOrderRow, newPendingOrder, List.any_append,
      hv, Except.map]
  · have hfind : findOrderByIdempotencyKey
        { db with orders := db.orders ++ [newPendingOrder input idA] }
        input.idempotencyKey = some (newPendingOrder input idA) := by
      unfold findOrderByIdempotencyKey at h ⊢
      exact find?_append_singleton db.orders _ _ h (by simp [newPendingOrder])
    simp [createOrder, hfind, createOrderAfterRead]

/-- Witness for C4 amended at the empty store and the race input. -/
theorem C4_amended_race_one_row_witness :
    createOrderAfterRead (⟨[], []⟩ : DB) none raceInput "ord_A"
      = .ok ({ (⟨[], []⟩ : DB) with
                orders := (⟨[], []⟩ : DB).orders ++ [newPendingOrder raceInput "ord_A"] },
             newPendingOrder raceInput "ord_A")
    ∧ createOrderAfterRead
        { (⟨[], []⟩ : DB) with
           orders := (⟨[], []⟩ : DB).orders ++ [newPendingOrder raceInput "ord_A"] }
        none raceInput "ord_B"
      = .error "Unique constraint failed on idempotencyKey"
    ∧ createOrder
        { (⟨[], []⟩ : DB) with
           orders := (⟨[], []⟩ : DB).orders ++ [newPendingOrder raceInput "ord_A"] }
        raceInput "ord_B"
      = .ok ({ (⟨[], []⟩ : DB) with
                orders := (⟨[], []⟩ : DB).orders ++ [newPendingOrder raceInput "ord_A"] },
             newPendingOrder raceInput "ord_A") :=
  C4_amended_race_one_row (⟨[], []⟩ : DB) raceInput "ord_A" "ord_B" (by decide) (by decide)

/-- C7: a checkout request whose item list is empty, or contains an
item with a falsy id or quantity or quantity below one, is answered
with the 400 validation error before anything else happens: the store
is unchanged (no Order row) and no gateway call is issued. -/
theorem C7_validation_before_effects
    (retrieve : String → Option StripeSession)
    (create : String → List CartItem → String → StripeSessionResult)
    (db : DB) (items : List CartItem) (clientKey : Option String)
    (genKey newOrderId : String)
    (h : validItems items = false) :
    (createCheckoutSessionController retrieve create db items clientKey genKey newOrderId).1 = db
    ∧ (createCheckoutSessionController retrieve create db items clientKey genKey newOrderId).2.2 = []
    ∧ (∃ msg, (createCheckoutSessionController retrieve create db items clientKey
        genKey newOrderId).2.1 = CheckoutResponse.validationError msg) := by
  by_cases he : items.isEmpty
  · refine ⟨?_, ?_, "Cart items are required", ?_⟩ <;>
      simp [createCheckoutSessionController, he]
  · have hany : items.any itemInvalid = true := by
      by_contra hc
      have hfa : ∀ x ∈ items, itemInvalid x = false := by
        intro x hx
        have := List.any_eq_false.mp (Bool.eq_false_iff.mpr hc) x hx
        simpa using this
      have hall : items.all (fun item => !(itemInvalid item)) = true :=
        List.all_eq_true.mpr (fun x hx => by simp [hfa x hx])
      rw [validItems, hall, Bool.eq_false_iff.mpr he] at h
      simp at h
    refine ⟨?_, ?_, "Each item must have id and quantity >= 1", ?_⟩ <;>
      simp [createCheckoutSessionController, he, hany]

/-- Witness for C7: an item with quantity zero. -/
theorem C7_validation_before_effects_witness :
    (createCheckoutSessionController (fun _ => none) (fun _ _ _ => .err "unused")
        dbProcessingOrder [⟨"p1", "Widget", some 500, 0⟩] none "gen1" "ord_9").1
      = dbProcessingOrder
    ∧ (createCheckoutSessionController (fun _ => none) (fun _ _ _ => .err "unused")
        dbProcessingOrder [⟨"p1", "Widget", some 500, 0⟩] none "gen1" "ord_9").2.2 = []
    ∧ (∃ msg, (createCheckoutSessionController (fun _ => none) (fun _ _ _ => .err "unused")
        dbProcessingOrder [⟨"p1", "Widget", some 500, 0⟩] none "gen1" "ord_9").2.1
        = CheckoutResponse.validationError msg) :=
  C7_validation_before_effects (fun _ => none) (fun _ _ _ => .err "unused")
    dbProcessingOrder [⟨"p1", "Widget", some 500, 0⟩] none "gen1" "ord_9" (by decide)

/-- C8: when the resolved idempotency key matches an order that already
carries a provider session id and the gateway still reports a redirect
url for that session, the controller answers immediately with that url
and the existing order id: the store is untouched (no new order), the
only gateway call is the session retrieval (no session creation), and
the item list of the retried request — any valid list, including one
different from the original — is never consulted. -/
theorem C8_replay_key_wins
    (retrieve : String → Option StripeSession)
    (create : String → List CartItem → String → StripeSessionResult)
    (db : DB) (items : List CartItem) (k genKey newOrderId : String)
    (o : Order) (sid : String) (sess : StripeSession) (u : String)
    (hval : validItems items = true)
    (hk : (k == "") = false)
    (hfound : findOrderByIdempotencyKey db k = some o)
    (hsid : o.stripeCheckoutId = some sid)
    (hret : retrieve sid = some sess)
    (hurl : sess.url = some u) :
    createCheckoutSessionController retrieve create db items (some k) genKey newOrderId
      = (db, .success (some u) o.id, [.retrieveSession sid]) := by
  have he : items.isEmpty = false := by
    have := ((Bool.and_eq_true_iff.mp hval)).1
    simpa using this
  have hany : items.any itemInvalid = false := by
    have hall := ((Bool.and_eq_true_iff.mp hval)).2
    refine List.any_eq_false.mpr (fun x hx => ?_)
    have := List.all_eq_true.mp hall x hx
    simpa using this
  simp [createCheckoutSessionController, he, hany, hk, hfound, hsid, hret, hurl]

/-- Witness for C8: the PROCESSING order for key_3 and session cs_3 is
replayed with a different, valid item list; the answer is the live url
and ord_3, and only the retrieval call is made. -/
theorem C8_replay_key_wins_witness :
    createCheckoutSessionController
        (fun sid => if sid == "cs_3" then some ⟨"cs_3", some "https://pay.example/live"⟩ else none)
        (fun _ _ _ => .err "unused")
        dbProcessingOrder [⟨"pX", "Other", some 100, 1⟩] (some "key_3") "gen1" "ord_9"
      = (dbProcessingOrder, .success (some "https://pay.example/live") "ord_3",
         [.retrieveSession "cs_3"]) :=
  C8_replay_key_wins
    (fun sid => if sid == "cs_3" then some ⟨"cs_3", some "https://pay.example/live"⟩ else none)
    (fun _ _ _ => .err "unused")
    dbProcessingOrder [⟨"pX", "Other", some 100, 1⟩] "key_3" "gen1" "ord_9"
    { id := "ord_3", status := .PROCESSING, amount := .num 1000,
      currency := "usd", items := [], idempotencyKey := "key_3",
      stripeCheckoutId := some "cs_3", stripePaymentId := none,
      customerEmail := none, paidAt := none }
    "cs_3" ⟨"cs_3", some "https://pay.example/live"⟩ "https://pay.example/live"
    (by decide) (by decide) (by decide) (by decide) rfl rfl

end EcomSync
